import Mathlib

set_option maxRecDepth 100000

/-!
# Verification of the ZhiyanTrack client-side rendering script (script.js)

Shallow embedding of the data-loading-and-rendering pipeline of
`script.js`: `AppState`, `DataLoader`, `UIComponents` and the
`PageManager` orchestration, together with theorems settling the
behavioural claims about the pipeline.

Modelling choices:
* JSON values are the inductive type `JVal`; a payload slot of
  `AppState.data` is `Option JVal` (`none` = JS `null`).
* JavaScript truthiness is the boolean `JVal.truthy`; property access is
  `JVal.getField` (returns `none`, i.e. JS `undefined`, on non-objects
  and missing keys); template-literal interpolation of a value is
  `interp` (JS `undefined` prints as `"undefined"`, `null` as `"null"`).
* The DOM containers the script writes into are the four `Option String`
  fields of `PageDom` (`none` = the element is absent from the page,
  `some s` = the element exists and its `innerHTML` is `s`).
* A fetch of one resource has one of four outcomes (`FetchResult`):
  success with a parsed JSON body, a non-success HTTP status, a network
  rejection, or a body that fails JSON parsing.
* Code that can raise a JavaScript exception is modelled in
  `Except String`; a `.error` value is a thrown `TypeError`/`Error`.
-/

/-- A parsed JSON value (the result of `response.json()`). -/
inductive JVal where
  | jnull : JVal
  | jbool : Bool → JVal
  | jnum : Int → JVal
  | jstr : String → JVal
  | jarr : List JVal → JVal
  | jobj : List (String × JVal) → JVal

mutual

/-- JavaScript `String(v)` as used by template-literal interpolation:
`null` prints `"null"`, booleans and numbers print themselves, arrays
join their elements with `","` (with `null` elements printing empty),
plain objects print `"[object Object]"`. -/
def JVal.toJSString : JVal → String
  | .jnull => "null"
  | .jbool b => if b then "true" else "false"
  | .jnum n => toString n
  | .jstr s => s
  | .jarr xs => JVal.joinArray xs
  | .jobj _ => "[object Object]"

/-- JavaScript `Array.prototype.toString`: elements joined by `","`,
`null` elements contributing the empty string. -/
def JVal.joinArray : List JVal → String
  | [] => ""
  | [.jnull] => ""
  | [v] => JVal.toJSString v
  | .jnull :: vs => "," ++ JVal.joinArray vs
  | v :: vs => JVal.toJSString v ++ "," ++ JVal.joinArray vs

end

/-- JavaScript property access `v.k`: defined (`some`) only on objects
that carry the key; everything else yields `undefined` (`none`). -/
def JVal.getField : JVal → String → Option JVal
  | .jobj fields, k => fields.lookup k
  | _, _ => none

/-- JavaScript truthiness of a `JVal`: `null`, `false`, `0` and `""` are
falsy; arrays and objects are always truthy. -/
def JVal.truthy : JVal → Bool
  | .jnull => false
  | .jbool b => b
  | .jnum n => n != 0
  | .jstr s => s != ""
  | .jarr _ => true
  | .jobj _ => true

/-- Truthiness of a nullable value (`none` = JS `null`, which is falsy). -/
def truthyOpt : Option JVal → Bool
  | none => false
  | some v => v.truthy

/-- Property access through a nullable value, for stating guards:
`getFieldOpt p k` is `p.k` when `p` is a non-null object carrying `k`. -/
def getFieldOpt (p : Option JVal) (k : String) : Option JVal :=
  p.bind fun v => v.getField k

/-- Template-literal interpolation `${e}` of a possibly-`undefined`
JavaScript value. -/
def interp : Option JVal → String
  | none => "undefined"
  | some v => v.toJSString

/-- The global `AppState.data` record: one nullable payload per section
(lines 9–14 of script.js). -/
structure AppData where
  features : Option JVal
  techAdvantages : Option JVal
  useCases : Option JVal
  serviceModel : Option JVal

/-- The global `AppState` (lines 7–15 of script.js). -/
structure AppState where
  isLoading : Bool
  data : AppData

/-- The four DOM containers the script renders into, by element id:
`features-grid`, `tech-preview`, `use-cases-grid`,
`service-table-container`. `none` models a missing element
(`document.getElementById` returned `null`); `some s` models an element
whose current `innerHTML` is `s`. -/
structure PageDom where
  featuresGrid : Option String
  techPreview : Option String
  useCasesGrid : Option String
  serviceTableContainer : Option String

/-- Outcome of one `fetch` of a JSON resource: success with a parsed
body, a non-success HTTP status (`response.ok` false), a rejected fetch
(network error), or a body that is not valid JSON (`response.json()`
rejects). -/
inductive FetchResult where
  | ok : JVal → FetchResult
  | httpError : Nat → FetchResult
  | networkError : FetchResult
  | parseError : FetchResult

/-- The body of `DataLoader.loadJSON`'s `try` block (lines 58–63):
await the fetch, throw on a non-ok status, await and return the parsed
JSON. A `.error` value is a raised exception. -/
def DataLoader.fetchPipeline (filepath : String) : FetchResult → Except String JVal
  | .ok body => .ok body
  | .httpError status => .error ("Failed to load " ++ filepath ++ ": " ++ toString status)
  | .networkError => .error ("network error fetching " ++ filepath)
  | .parseError => .error ("JSON parse error in " ++ filepath)

/-- `DataLoader.loadJSON` (lines 57–68): the `catch` converts every
failure of the pipeline into `null`, so the returned promise never
rejects. -/
def DataLoader.loadJSON (filepath : String) (r : FetchResult) : Option JVal :=
  match DataLoader.fetchPipeline filepath r with
  | .ok v => some v
  | .error _ => none

/-- `AppState.isLoading = true` at the top of `loadAllData` (line 71). -/
def DataLoader.startLoad (st : AppState) : AppState :=
  { st with isLoading := true }

/-- The `finally` clause of `loadAllData` (lines 92–94):
`AppState.isLoading = false` on the way out of either return. -/
def DataLoader.finishLoad (st : AppState) : AppState :=
  { st with isLoading := false }

/-- `Promise.all(loadPromises)` over the four `loadJSON` calls
(lines 73–81): each `loadJSON` promise resolves (never rejects), so the
aggregate always resolves with the four nullable payloads. -/
def DataLoader.promiseAll (rf rt ru rs : FetchResult) :
    Except String (Option JVal × Option JVal × Option JVal × Option JVal) :=
  .ok (DataLoader.loadJSON "data/product-features.json" rf,
       DataLoader.loadJSON "data/tech-advantages.json" rt,
       DataLoader.loadJSON "data/use-cases.json" ru,
       DataLoader.loadJSON "data/service-model.json" rs)

/-- The `try`/`catch`/`finally` of `loadAllData` (lines 80–95), applied
to the settled aggregate: on resolution, store the four payloads in
`AppState.data` and return `true`; on rejection, return `false`; either
way the `finally` clears `isLoading`. -/
def DataLoader.loadAllDataCore (st : AppState)
    (res : Except String (Option JVal × Option JVal × Option JVal × Option JVal)) :
    Bool × AppState :=
  match res with
  | .ok (features, techAdvantages, useCases, serviceModel) =>
      (true, DataLoader.finishLoad
        { st with data := ⟨features, techAdvantages, useCases, serviceModel⟩ })
  | .error _ => (false, DataLoader.finishLoad st)

/-- `DataLoader.loadAllData` (lines 70–95), as a function of the four
fetch outcomes: set `isLoading`, await the aggregate, store and return. -/
def DataLoader.loadAllData (st : AppState) (rf rt ru rs : FetchResult) : Bool × AppState :=
  DataLoader.loadAllDataCore (DataLoader.startLoad st) (DataLoader.promiseAll rf rt ru rs)

/-- Spec-side description of one slot after a load ("the parsed payload
when that resource loaded and null when it failed"). -/
def expectedPayload : FetchResult → Option JVal
  | .ok body => some body
  | _ => none

/-- The placeholder markup `Utils.showLoading` writes into a container
(lines 46–50). -/
def loadingSkeleton : String :=
  "\n                <div class=\"loading-placeholder h-32 rounded-lg mb-4\"></div>\n                <div class=\"loading-placeholder h-4 rounded mb-2\"></div>\n                <div class=\"loading-placeholder h-4 rounded w-3/4\"></div>\n            "

/-- `Utils.showLoading(container)` (lines 44–52): if the element exists,
replace its `innerHTML` with the loading skeleton. -/
def Utils.showLoading (container : Option String) : Option String :=
  container.map fun _ => loadingSkeleton

/-- Template chunk of `renderFeatureCard` before `${feature.icon}`. -/
def UIComponents.cardChunkA : String :=
  "\n            <div class=\"feature-card bg-white rounded-lg p-6 shadow-md\">\n                <div class=\"text-4xl mb-4\">"

/-- Template chunk of `renderFeatureCard` between `${feature.icon}` and
`${feature.title}`. -/
def UIComponents.cardChunkB : String :=
  "</div>\n                <h3 class=\"text-xl font-bold text-tech-blue mb-3\">"

/-- Template chunk of `renderFeatureCard` between `${feature.title}` and
`${feature.description}`. -/
def UIComponents.cardChunkC : String :=
  "</h3>\n                <p class=\"text-gray-700 mb-4\">"

/-- Template chunk of `renderFeatureCard` between `${feature.description}`
and `${feature.value}`. -/
def UIComponents.cardChunkD : String :=
  "</p>\n                <div class=\"text-sm text-accent-cyan font-semibold\">\n                    价值: "

/-- Template chunk of `renderFeatureCard` after `${feature.value}`. -/
def UIComponents.cardChunkE : String :=
  "\n                </div>\n            </div>\n        "

/-- `UIComponents.renderFeatureCard` (lines 100–111): the template
literal with the four fields of the feature record interpolated. -/
def UIComponents.renderFeatureCard (feature : JVal) : String :=
  UIComponents.cardChunkA ++ interp (feature.getField "icon") ++
  UIComponents.cardChunkB ++ interp (feature.getField "title") ++
  UIComponents.cardChunkC ++ interp (feature.getField "description") ++
  UIComponents.cardChunkD ++ interp (feature.getField "value") ++
  UIComponents.cardChunkE

/-- `UIComponents.renderTechCard` (lines 113–121). -/
def UIComponents.renderTechCard (tech : JVal) : String :=
  "\n            <div class=\"tech-card bg-white rounded-lg p-6 shadow-md text-center\">\n                <div class=\"text-3xl mb-3\">" ++
  interp (tech.getField "icon") ++
  "</div>\n                <h4 class=\"text-lg font-bold text-tech-blue mb-2\">" ++
  interp (tech.getField "title") ++
  "</h4>\n                <p class=\"text-sm text-gray-600\">" ++
  interp (tech.getField "description") ++
  "</p>\n            </div>\n        "

/-- `UIComponents.renderUseCaseCard` (lines 123–144). -/
def UIComponents.renderUseCaseCard (useCase : JVal) : String :=
  "\n            <div class=\"bg-white rounded-lg p-6 shadow-md\">\n                <div class=\"text-4xl mb-4\">" ++
  interp (useCase.getField "icon") ++
  "</div>\n                <h3 class=\"text-xl font-bold text-tech-blue mb-3\">" ++
  interp (useCase.getField "scenario") ++
  "</h3>\n                <div class=\"space-y-3\">\n                    <div>\n                        <h4 class=\"font-semibold text-gray-800 mb-1\">痛点:</h4>\n                        <p class=\"text-gray-600 text-sm\">" ++
  interp (useCase.getField "painPoint") ++
  "</p>\n                    </div>\n                    <div>\n                        <h4 class=\"font-semibold text-gray-800 mb-1\">解决方案:</h4>\n                        <p class=\"text-gray-600 text-sm\">" ++
  interp (useCase.getField "solution") ++
  "</p>\n                    </div>\n                    <div>\n                        <h4 class=\"font-semibold text-accent-cyan mb-1\">预期收益:</h4>\n                        <p class=\"text-gray-600 text-sm\">" ++
  interp (useCase.getField "benefit") ++
  "</p>\n                    </div>\n                </div>\n            </div>\n        "

/-- The "loading" placeholder fragment returned by `renderServiceTable`
when its null-guard fires (line 148). -/
def servicePlaceholder : String :=
  "<p class=\"text-center py-8 text-gray-600\">服务模式数据加载中...</p>"

/-- One table row of `renderServiceTable` (lines 151–158): the row
template with the four fields of a delivery item interpolated. -/
def UIComponents.serviceRow (item : JVal) : String :=
  "\n            <tr class=\"hover:bg-gray-50 transition-colors\">\n                <td class=\"px-6 py-4 font-semibold text-tech-blue\">" ++
  interp (item.getField "reportType") ++
  "</td>\n                <td class=\"px-6 py-4\">" ++
  interp (item.getField "frequency") ++
  "</td>\n                <td class=\"px-6 py-4\">" ++
  interp (item.getField "coreContent") ++
  "</td>\n                <td class=\"px-6 py-4\">" ++
  interp (item.getField "value") ++
  "</td>\n            </tr>\n        "

/-- Table template of `renderServiceTable` before `${tableRows}`
(lines 160–171): the `<table>` opening and the fixed header row. -/
def tableHead : String :=
  "\n            <table class=\"service-table w-full\">\n                <thead>\n                    <tr class=\"bg-tech-blue text-white\">\n                        <th class=\"px-6 py-4 text-left\">报告类型</th>\n                        <th class=\"px-6 py-4 text-left\">频率</th>\n                        <th class=\"px-6 py-4 text-left\">核心内容</th>\n                        <th class=\"px-6 py-4 text-left\">价值</th>\n                    </tr>\n                </thead>\n                <tbody>\n                    "

/-- Table template of `renderServiceTable` after `${tableRows}`
(lines 171–174). -/
def tableFoot : String :=
  "\n                </tbody>\n            </table>\n        "

/-- `UIComponents.renderServiceTable` (lines 146–175). The guard
`!serviceModel || !serviceModel.deliveryItems` is expanded into its
JavaScript short-circuit/truthiness semantics: a falsy argument or a
missing-or-falsy `deliveryItems` property yields the placeholder.
When `deliveryItems` is truthy, `deliveryItems.map(...)` succeeds only
on an array; a truthy non-array raises a `TypeError` (`.error`). -/
def UIComponents.renderServiceTable (serviceModel : Option JVal) : Except String String :=
  match serviceModel with
  | none => .ok servicePlaceholder
  | some v =>
    if !v.truthy then .ok servicePlaceholder
    else match v.getField "deliveryItems" with
      | none => .ok servicePlaceholder
      | some d =>
        if !d.truthy then .ok servicePlaceholder
        else match d with
          | .jarr items =>
              .ok (tableHead ++ String.join (items.map UIComponents.serviceRow) ++ tableFoot)
          | _ => .error "TypeError: serviceModel.deliveryItems.map is not a function"

/-- The static fallback markup `renderFallbackContent` writes into the
features container (lines 353–357). -/
def fallbackFragment : String :=
  "\n                <div class=\"col-span-full text-center py-8\">\n                    <p class=\"text-gray-600\">功能介绍将在系统升级后呈现，敬请期待。</p>\n                </div>\n            "

/-- `PageManager.renderFeatures` (lines 293–310): guarded by
`container && features && features.features`; on a truthy `features`
list, inject the first 6 feature cards joined with `''`. `slice`/`map`
on a truthy non-array raises a `TypeError` (`.error`); the staggered
animation touches only CSS classes and styles, not `innerHTML`, so it
is not modelled. -/
def PageManager.renderFeatures (st : AppState) (dom : PageDom) : Except String PageDom :=
  match dom.featuresGrid with
  | none => .ok dom
  | some _ =>
    match st.data.features with
    | none => .ok dom
    | some features =>
      if !features.truthy then .ok dom
      else match features.getField "features" with
        | none => .ok dom
        | some f =>
          if !f.truthy then .ok dom
          else match f with
            | .jarr fs =>
                .ok { dom with featuresGrid := some (String.join ((fs.take 6).map UIComponents.renderFeatureCard)) }
            | _ => .error "TypeError: features.features.slice(0, 6).map is not a function"

/-- `PageManager.renderTechnologyPreview` (lines 312–323): guarded by
`container && techData && techData.technologies`; renders every tech
card (no slicing). -/
def PageManager.renderTechnologyPreview (st : AppState) (dom : PageDom) : Except String PageDom :=
  match dom.techPreview with
  | none => .ok dom
  | some _ =>
    match st.data.techAdvantages with
    | none => .ok dom
    | some techData =>
      if !techData.truthy then .ok dom
      else match techData.getField "technologies" with
        | none => .ok dom
        | some t =>
          if !t.truthy then .ok dom
          else match t with
            | .jarr ts =>
                .ok { dom with techPreview := some (String.join (ts.map UIComponents.renderTechCard)) }
            | _ => .error "TypeError: techData.technologies.map is not a function"

/-- `PageManager.renderUseCases` (lines 325–336): guarded by
`container && useCasesData && useCasesData.scenarios`; renders the
first 3 use-case cards. -/
def PageManager.renderUseCases (st : AppState) (dom : PageDom) : Except String PageDom :=
  match dom.useCasesGrid with
  | none => .ok dom
  | some _ =>
    match st.data.useCases with
    | none => .ok dom
    | some useCasesData =>
      if !useCasesData.truthy then .ok dom
      else match useCasesData.getField "scenarios" with
        | none => .ok dom
        | some s =>
          if !s.truthy then .ok dom
          else match s with
            | .jarr ss =>
                .ok { dom with useCasesGrid := some (String.join ((ss.take 3).map UIComponents.renderUseCaseCard)) }
            | _ => .error "TypeError: useCasesData.scenarios.slice(0, 3).map is not a function"

/-- `PageManager.renderServiceModel` (lines 338–345): if the container
exists, unconditionally replace its `innerHTML` with the result of
`renderServiceTable` (which carries its own null-guard); an exception
raised inside `renderServiceTable` propagates. -/
def PageManager.renderServiceModel (st : AppState) (dom : PageDom) : Except String PageDom :=
  match dom.serviceTableContainer with
  | none => .ok dom
  | some _ =>
    match UIComponents.renderServiceTable st.data.serviceModel with
    | .ok html => .ok { dom with serviceTableContainer := some html }
    | .error e => .error e

/-- `PageManager.renderFallbackContent` (lines 347–359): replace the
features container (when present) with the static fallback message;
no other container is touched. -/
def PageManager.renderFallbackContent (dom : PageDom) : PageDom :=
  { dom with featuresGrid := dom.featuresGrid.map fun _ => fallbackFragment }

/-- The `if (success) ... else ...` branch of `loadAndRenderContent`
(lines 283–291): on success run the four render steps in order, on
failure run `renderFallbackContent`. -/
def PageManager.dispatchRender (success : Bool) (st : AppState) (dom : PageDom) :
    Except String PageDom :=
  if success then do
    let d1 ← PageManager.renderFeatures st dom
    let d2 ← PageManager.renderTechnologyPreview st d1
    let d3 ← PageManager.renderUseCases st d2
    PageManager.renderServiceModel st d3
  else .ok (PageManager.renderFallbackContent dom)

/-- The `Object.values(containers).forEach(showLoading)` step of
`loadAndRenderContent` (lines 269–278). -/
def PageManager.showLoadingAll (dom : PageDom) : PageDom :=
  { featuresGrid := Utils.showLoading dom.featuresGrid,
    techPreview := Utils.showLoading dom.techPreview,
    useCasesGrid := Utils.showLoading dom.useCasesGrid,
    serviceTableContainer := Utils.showLoading dom.serviceTableContainer }

/-- `PageManager.loadAndRenderContent` (lines 267–291), as a function of
the four fetch outcomes: show the loading placeholders, run
`loadAllData`, then branch on its boolean. -/
def PageManager.loadAndRenderContent (st : AppState) (rf rt ru rs : FetchResult)
    (dom : PageDom) : Except String (AppState × PageDom) :=
  let dom1 := PageManager.showLoadingAll dom
  let res := DataLoader.loadAllData st rf rt ru rs
  (PageManager.dispatchRender res.1 res.2 dom1).map fun d => (res.2, d)

/-- Concrete inputs used to exercise the theorems below. -/
def sampleDom : PageDom :=
  ⟨some loadingSkeleton, some loadingSkeleton, some loadingSkeleton, some loadingSkeleton⟩

/-- If a property lookup on a value succeeds, the value is an object and
hence truthy. -/
theorem JVal.truthy_of_getField {v : JVal} {k : String} {w : JVal}
    (h : v.getField k = some w) : v.truthy = true := by
  cases v <;> simp_all [JVal.getField, JVal.truthy]

/-- C1: for every outcome of the four fetches — success with a JSON
body, non-success status, network error, or parse error, per fetch —
`loadAllData` resolves to `true` (it is a total function into
`Bool × AppState`, never an exception), and each of the four keys of
`AppState.data` holds the parsed payload when its resource loaded and
null when it failed. -/
theorem c1_loadAllData_fail_soft (st : AppState) (rf rt ru rs : FetchResult) :
    (DataLoader.loadAllData st rf rt ru rs).1 = true ∧
    (DataLoader.loadAllData st rf rt ru rs).2.data.features = expectedPayload rf ∧
    (DataLoader.loadAllData st rf rt ru rs).2.data.techAdvantages = expectedPayload rt ∧
    (DataLoader.loadAllData st rf rt ru rs).2.data.useCases = expectedPayload ru ∧
    (DataLoader.loadAllData st rf rt ru rs).2.data.serviceModel = expectedPayload rs := by
  refine ⟨rfl, ?_, ?_, ?_, ?_⟩
  · cases rf <;> rfl
  · cases rt <;> rfl
  · cases ru <;> rfl
  · cases rs <;> rfl

/-- C7: `loadAllData` is the core computation run on the state with
`isLoading` set to `true`, the initial `startLoad` sets `isLoading`,
and the core resets `isLoading` to `false` on every completion path —
both the success (`.ok`) return and the error (`.error`) return go
through the `finally` clause (`finishLoad`). -/
theorem c7_isLoading_lifecycle (st : AppState) (rf rt ru rs : FetchResult) :
    DataLoader.loadAllData st rf rt ru rs
      = DataLoader.loadAllDataCore (DataLoader.startLoad st) (DataLoader.promiseAll rf rt ru rs) ∧
    (DataLoader.startLoad st).isLoading = true ∧
    (∀ st' res, (DataLoader.loadAllDataCore st' res).2.isLoading = false) := by
  refine ⟨rfl, rfl, ?_⟩
  intro st' res
  cases res with
  | ok q => obtain ⟨f, t, u, s⟩ := q; rfl
  | error e => rfl

/-- The fixed feature record of C8. -/
def c8Feature : JVal :=
  .jobj [("icon", .jstr "🔧"), ("title", .jstr "T"),
         ("description", .jstr "D"), ("value", .jstr "V")]

/-- C8: `renderFeatureCard` on the fixed record
`{icon:"🔧", title:"T", description:"D", value:"V"}` produces exactly
the fixed template chunks with the four field values interposed
verbatim — all four values appear and nothing besides them and the
template text. -/
theorem c8_renderFeatureCard_verbatim :
    UIComponents.renderFeatureCard c8Feature =
      UIComponents.cardChunkA ++ "🔧" ++ UIComponents.cardChunkB ++ "T" ++
      UIComponents.cardChunkC ++ "D" ++ UIComponents.cardChunkD ++ "V" ++
      UIComponents.cardChunkE := rfl

/-- C9: a payload whose `deliveryItems` field is present and an empty
array produces the table fragment with the header and zero data rows —
not the loading placeholder. The empty array is truthy in JavaScript,
so it falls on the table side of the null-guard. -/
theorem c9_renderServiceTable_emptyList :
    UIComponents.renderServiceTable (some (.jobj [("deliveryItems", .jarr [])]))
      = .ok (tableHead ++ String.join (([] : List JVal).map UIComponents.serviceRow) ++ tableFoot) ∧
    tableHead ++ String.join (([] : List JVal).map UIComponents.serviceRow) ++ tableFoot
      ≠ servicePlaceholder := by
  refine ⟨rfl, by decide⟩

/-- C6: on the failure branch (`loadAllData` returned `false` — a
branch the orchestrator defines defensively), `dispatchRender` runs
`renderFallbackContent`, which replaces only the features container
with the static fallback message; the tech, use-case and service-table
containers are left exactly as they were. -/
theorem c6_failure_branch_frame (st : AppState) (dom : PageDom) :
    PageManager.dispatchRender false st dom = .ok (PageManager.renderFallbackContent dom) ∧
    (PageManager.renderFallbackContent dom).featuresGrid
      = dom.featuresGrid.map (fun _ => fallbackFragment) ∧
    (PageManager.renderFallbackContent dom).techPreview = dom.techPreview ∧
    (PageManager.renderFallbackContent dom).useCasesGrid = dom.useCasesGrid ∧
    (PageManager.renderFallbackContent dom).serviceTableContainer = dom.serviceTableContainer :=
  ⟨rfl, rfl, rfl, rfl, rfl⟩

/-- A rendered table fragment is never the loading placeholder: it is
strictly longer than the placeholder whatever the rows are. -/
theorem tableFragment_ne_placeholder (rows : String) :
    tableHead ++ rows ++ tableFoot ≠ servicePlaceholder := by
  intro h
  have hl := congrArg String.length h
  simp only [String.length_append] at hl
  have h1 : servicePlaceholder.length < tableHead.length := by decide
  omega

/-- C3 counterexample: the payload `{deliveryItems: null}` is not null
and does carry the `deliveryItems` field, yet `renderServiceTable`
returns the loading placeholder, not a table — the guard tests
truthiness, not field presence, so "placeholder exactly when the
argument is null or lacks the field" fails here. -/
theorem c3_counterexample :
    UIComponents.renderServiceTable (some (.jobj [("deliveryItems", .jnull)]))
      = .ok servicePlaceholder ∧
    (JVal.jobj [("deliveryItems", JVal.jnull)]).getField "deliveryItems" = some .jnull ∧
    (some (JVal.jobj [("deliveryItems", JVal.jnull)]) : Option JVal) ≠ none :=
  ⟨rfl, rfl, by simp⟩

/-- C3 as amended: `renderServiceTable` returns the loading placeholder
exactly when its argument is falsy (in particular null) or its
`deliveryItems` field is absent or falsy; when `deliveryItems` holds an
array, it returns the table fragment with exactly one data row per
delivery item (each row interpolating that item's `reportType`,
`frequency`, `coreContent` and `value` — see `UIComponents.serviceRow`),
in order. -/
theorem c3_amended_renderServiceTable (sm : Option JVal) :
    (UIComponents.renderServiceTable sm = .ok servicePlaceholder
        ↔ (truthyOpt sm && truthyOpt (getFieldOpt sm "deliveryItems")) = false) ∧
    (∀ v items, sm = some v → v.getField "deliveryItems" = some (.jarr items) →
      UIComponents.renderServiceTable sm
        = .ok (tableHead ++ String.join (items.map UIComponents.serviceRow) ++ tableFoot) ∧
      (items.map UIComponents.serviceRow).length = items.length) := by
  constructor
  · cases sm with
    | none => simp [UIComponents.renderServiceTable, truthyOpt, getFieldOpt]
    | some v =>
      cases hT : v.truthy with
      | false => simp [UIComponents.renderServiceTable, truthyOpt, getFieldOpt, Option.bind, hT]
      | true =>
        cases hF : v.getField "deliveryItems" with
        | none =>
            simp [UIComponents.renderServiceTable, truthyOpt, getFieldOpt, Option.bind, hT, hF]
        | some d =>
          cases hd : d.truthy with
          | false =>
              simp [UIComponents.renderServiceTable, truthyOpt, getFieldOpt, Option.bind,
                    hT, hF, hd]
          | true =>
              cases d <;>
                simp_all [UIComponents.renderServiceTable, truthyOpt, getFieldOpt, Option.bind,
                          JVal.truthy, tableFragment_ne_placeholder]
  · rintro v items rfl hF
    have hT : v.truthy = true := JVal.truthy_of_getField hF
    refine ⟨?_, ?_⟩
    · simp only [UIComponents.renderServiceTable, hT, hF]
      simp [JVal.truthy]
    · exact List.length_map items UIComponents.serviceRow

/-- A delivery item used to exercise the table renderer. -/
def c3Item : JVal :=
  .jobj [("reportType", .jstr "A"), ("frequency", .jstr "B"),
         ("coreContent", .jstr "C"), ("value", .jstr "D")]

/-- Witness for the amended C3: a one-item payload produces the table
fragment with exactly one row. -/
theorem c3_amended_witness :
    UIComponents.renderServiceTable (some (.jobj [("deliveryItems", .jarr [c3Item])]))
      = .ok (tableHead ++ String.join ([c3Item].map UIComponents.serviceRow) ++ tableFoot) ∧
    ([c3Item].map UIComponents.serviceRow).length = [c3Item].length :=
  (c3_amended_renderServiceTable (some (.jobj [("deliveryItems", .jarr [c3Item])]))).2
    (.jobj [("deliveryItems", .jarr [c3Item])]) [c3Item] rfl rfl

/-- C4: for a features payload whose `features` field is an array of
`n` elements, `renderFeatures` injects the join of exactly
`min n 6` feature-card fragments, mapped over the first `min n 6`
elements in original order; for a use-cases payload whose `scenarios`
field is an array of `m` elements, `renderUseCases` injects exactly
`min m 3` use-case fragments, likewise in order. -/
theorem c4_slice_limits (st : AppState) (dom : PageDom) :
    (∀ p fs c, st.data.features = some p → p.getField "features" = some (.jarr fs) →
      dom.featuresGrid = some c →
      PageManager.renderFeatures st dom
        = .ok { dom with featuresGrid := some (String.join ((fs.take 6).map UIComponents.renderFeatureCard)) } ∧
      (fs.take 6).length = min fs.length 6) ∧
    (∀ q ss c, st.data.useCases = some q → q.getField "scenarios" = some (.jarr ss) →
      dom.useCasesGrid = some c →
      PageManager.renderUseCases st dom
        = .ok { dom with useCasesGrid := some (String.join ((ss.take 3).map UIComponents.renderUseCaseCard)) } ∧
      (ss.take 3).length = min ss.length 3) := by
  constructor
  · intro p fs c h1 h2 h3
    have hT : p.truthy = true := JVal.truthy_of_getField h2
    refine ⟨?_, ?_⟩
    · simp only [PageManager.renderFeatures, h1, h2, h3, hT]
      simp [JVal.truthy]
    · rw [List.length_take, Nat.min_comm]
  · intro q ss c h1 h2 h3
    have hT : q.truthy = true := JVal.truthy_of_getField h2
    refine ⟨?_, ?_⟩
    · simp only [PageManager.renderUseCases, h1, h2, h3, hT]
      simp [JVal.truthy]
    · rw [List.length_take, Nat.min_comm]

/-- Seven feature entries, to exceed the limit of 6. -/
def c4Features : List JVal :=
  [.jnum 0, .jnum 1, .jnum 2, .jnum 3, .jnum 4, .jnum 5, .jnum 6]

/-- Four scenario entries, to exceed the limit of 3. -/
def c4Scenarios : List JVal :=
  [.jnum 0, .jnum 1, .jnum 2, .jnum 3]

/-- An `AppState` holding 7 features and 4 scenarios. -/
def c4State : AppState :=
  ⟨false, ⟨some (.jobj [("features", .jarr c4Features)]), none,
           some (.jobj [("scenarios", .jarr c4Scenarios)]), none⟩⟩

/-- Witness for C4: with 7 features only the first 6 cards are injected,
and with 4 scenarios only the first 3. -/
theorem c4_witness :
    (PageManager.renderFeatures c4State sampleDom
        = .ok { sampleDom with featuresGrid := some (String.join ((c4Features.take 6).map UIComponents.renderFeatureCard)) } ∧
      (c4Features.take 6).length = min c4Features.length 6) ∧
    (PageManager.renderUseCases c4State sampleDom
        = .ok { sampleDom with useCasesGrid := some (String.join ((c4Scenarios.take 3).map UIComponents.renderUseCaseCard)) } ∧
      (c4Scenarios.take 3).length = min c4Scenarios.length 3) :=
  ⟨(c4_slice_limits c4State sampleDom).1 (.jobj [("features", .jarr c4Features)])
      c4Features loadingSkeleton rfl rfl rfl,
   (c4_slice_limits c4State sampleDom).2 (.jobj [("scenarios", .jarr c4Scenarios)])
      c4Scenarios loadingSkeleton rfl rfl rfl⟩

/-- C5: when a section's payload is null, or is a value missing that
section's expected field, the corresponding render step does not throw
(it returns `.ok`), and the section's container is left in a
placeholder state: `renderFeatures`, `renderTechnologyPreview` and
`renderUseCases` leave the page untouched, while `renderServiceModel`
writes the explicit "loading" placeholder fragment into its container
(when the container exists). -/
theorem c5_null_or_malformed_safe (st : AppState) (dom : PageDom) :
    ((st.data.features = none ∨
        ∃ v, st.data.features = some v ∧ v.getField "features" = none) →
      PageManager.renderFeatures st dom = .ok dom) ∧
    ((st.data.techAdvantages = none ∨
        ∃ v, st.data.techAdvantages = some v ∧ v.getField "technologies" = none) →
      PageManager.renderTechnologyPreview st dom = .ok dom) ∧
    ((st.data.useCases = none ∨
        ∃ v, st.data.useCases = some v ∧ v.getField "scenarios" = none) →
      PageManager.renderUseCases st dom = .ok dom) ∧
    ((st.data.serviceModel = none ∨
        ∃ v, st.data.serviceModel = some v ∧ v.getField "deliveryItems" = none) →
      PageManager.renderServiceModel st dom
        = .ok { dom with serviceTableContainer := dom.serviceTableContainer.map fun _ => servicePlaceholder }) := by
  obtain ⟨a, b, c, d⟩ := dom
  refine ⟨?_, ?_, ?_, ?_⟩
  · rintro (h | ⟨v, hv, hf⟩)
    · cases a <;> simp [PageManager.renderFeatures, h]
    · cases a <;> cases hT : v.truthy <;>
        simp [PageManager.renderFeatures, hv, hf, hT]
  · rintro (h | ⟨v, hv, hf⟩)
    · cases b <;> simp [PageManager.renderTechnologyPreview, h]
    · cases b <;> cases hT : v.truthy <;>
        simp [PageManager.renderTechnologyPreview, hv, hf, hT]
  · rintro (h | ⟨v, hv, hf⟩)
    · cases c <;> simp [PageManager.renderUseCases, h]
    · cases c <;> cases hT : v.truthy <;>
        simp [PageManager.renderUseCases, hv, hf, hT]
  · rintro (h | ⟨v, hv, hf⟩)
    · cases d <;> simp [PageManager.renderServiceModel, UIComponents.renderServiceTable, h]
    · cases d <;> cases hT : v.truthy <;>
        simp [PageManager.renderServiceModel, UIComponents.renderServiceTable, hv, hf, hT]

/-- An `AppState` mixing the two malformed cases: null payloads for
features and use-cases, present-but-field-less payloads for the other
two sections. -/
def c5State : AppState :=
  ⟨false, ⟨none, some (.jobj []), none, some (.jobj [("other", .jnum 1)])⟩⟩

/-- Witness for C5 at a concrete malformed state. -/
theorem c5_witness :
    PageManager.renderFeatures c5State sampleDom = .ok sampleDom ∧
    PageManager.renderTechnologyPreview c5State sampleDom = .ok sampleDom ∧
    PageManager.renderUseCases c5State sampleDom = .ok sampleDom ∧
    PageManager.renderServiceModel c5State sampleDom
      = .ok { sampleDom with serviceTableContainer := sampleDom.serviceTableContainer.map fun _ => servicePlaceholder } :=
  ⟨(c5_null_or_malformed_safe c5State sampleDom).1 (Or.inl rfl),
   (c5_null_or_malformed_safe c5State sampleDom).2.1 (Or.inr ⟨_, rfl, rfl⟩),
   (c5_null_or_malformed_safe c5State sampleDom).2.2.1 (Or.inl rfl),
   (c5_null_or_malformed_safe c5State sampleDom).2.2.2 (Or.inr ⟨_, rfl, rfl⟩)⟩

/-- C10: each section's render step requires a nested wrapper object
with a truthy list field — `features.features`, `techData.technologies`,
`useCasesData.scenarios`. If the field is missing or falsy the step is
a no-op, and in particular a payload that is itself a bare array of
records fails the check (arrays have no such property), leaving the
container in its prior (placeholder) state. -/
theorem c10_wrapper_object_required (st : AppState) (dom : PageDom) :
    ((truthyOpt (getFieldOpt st.data.features "features") = false →
        PageManager.renderFeatures st dom = .ok dom) ∧
      (truthyOpt (getFieldOpt st.data.techAdvantages "technologies") = false →
        PageManager.renderTechnologyPreview st dom = .ok dom) ∧
      (truthyOpt (getFieldOpt st.data.useCases "scenarios") = false →
        PageManager.renderUseCases st dom = .ok dom)) ∧
    ((∀ l, st.data.features = some (.jarr l) →
        PageManager.renderFeatures st dom = .ok dom) ∧
      (∀ l, st.data.techAdvantages = some (.jarr l) →
        PageManager.renderTechnologyPreview st dom = .ok dom) ∧
      (∀ l, st.data.useCases = some (.jarr l) →
        PageManager.renderUseCases st dom = .ok dom)) := by
  have hfe : truthyOpt (getFieldOpt st.data.features "features") = false →
      PageManager.renderFeatures st dom = .ok dom := by
    intro h
    cases hd : st.data.features with
    | none => cases hc : dom.featuresGrid <;> simp [PageManager.renderFeatures, hd, hc]
    | some v =>
      rw [hd] at h
      simp only [getFieldOpt, Option.bind] at h
      cases hf : v.getField "features" with
      | none =>
          cases hc : dom.featuresGrid <;> cases hT : v.truthy <;>
            simp [PageManager.renderFeatures, hd, hc, hf, hT]
      | some f =>
          rw [hf] at h
          simp only [truthyOpt] at h
          cases hc : dom.featuresGrid <;> cases hT : v.truthy <;>
            simp [PageManager.renderFeatures, hd, hc, hf, hT, h]
  have hte : truthyOpt (getFieldOpt st.data.techAdvantages "technologies") = false →
      PageManager.renderTechnologyPreview st dom = .ok dom := by
    intro h
    cases hd : st.data.techAdvantages with
    | none => cases hc : dom.techPreview <;> simp [PageManager.renderTechnologyPreview, hd, hc]
    | some v =>
      rw [hd] at h
      simp only [getFieldOpt, Option.bind] at h
      cases hf : v.getField "technologies" with
      | none =>
          cases hc : dom.techPreview <;> cases hT : v.truthy <;>
            simp [PageManager.renderTechnologyPreview, hd, hc, hf, hT]
      | some f =>
          rw [hf] at h
          simp only [truthyOpt] at h
          cases hc : dom.techPreview <;> cases hT : v.truthy <;>
            simp [PageManager.renderTechnologyPreview, hd, hc, hf, hT, h]
  have hue : truthyOpt (getFieldOpt st.data.useCases "scenarios") = false →
      PageManager.renderUseCases st dom = .ok dom := by
    intro h
    cases hd : st.data.useCases with
    | none => cases hc : dom.useCasesGrid <;> simp [PageManager.renderUseCases, hd, hc]
    | some v =>
      rw [hd] at h
      simp only [getFieldOpt, Option.bind] at h
      cases hf : v.getField "scenarios" with
      | none =>
          cases hc : dom.useCasesGrid <;> cases hT : v.truthy <;>
            simp [PageManager.renderUseCases, hd, hc, hf, hT]
      | some f =>
          rw [hf] at h
          simp only [truthyOpt] at h
          cases hc : dom.useCasesGrid <;> cases hT : v.truthy <;>
            simp [PageManager.renderUseCases, hd, hc, hf, hT, h]
  exact ⟨⟨hfe, hte, hue⟩,
    fun l hl => hfe (by simp [getFieldOpt, Option.bind, hl, JVal.getField, truthyOpt]),
    fun l hl => hte (by simp [getFieldOpt, Option.bind, hl, JVal.getField, truthyOpt]),
    fun l hl => hue (by simp [getFieldOpt, Option.bind, hl, JVal.getField, truthyOpt])⟩

/-- An `AppState` whose first three payloads are bare arrays instead of
wrapper objects. -/
def c10State : AppState :=
  ⟨false, ⟨some (.jarr []), some (.jarr [.jnum 1]), some (.jarr [.jobj []]), none⟩⟩

/-- Witness for C10: with bare-array payloads every guarded render step
is a no-op, exercised both through the truthiness form and the
bare-array form of the statement. -/
theorem c10_witness :
    (PageManager.renderFeatures c10State sampleDom = .ok sampleDom ∧
      PageManager.renderTechnologyPreview c10State sampleDom = .ok sampleDom ∧
      PageManager.renderUseCases c10State sampleDom = .ok sampleDom) ∧
    (PageManager.renderFeatures c10State sampleDom = .ok sampleDom ∧
      PageManager.renderTechnologyPreview c10State sampleDom = .ok sampleDom ∧
      PageManager.renderUseCases c10State sampleDom = .ok sampleDom) :=
  ⟨⟨(c10_wrapper_object_required c10State sampleDom).1.1 rfl,
    (c10_wrapper_object_required c10State sampleDom).1.2.1 rfl,
    (c10_wrapper_object_required c10State sampleDom).1.2.2 rfl⟩,
   ⟨(c10_wrapper_object_required c10State sampleDom).2.1 [] rfl,
    (c10_wrapper_object_required c10State sampleDom).2.2.1 [.jnum 1] rfl,
    (c10_wrapper_object_required c10State sampleDom).2.2.2 [.jobj []] rfl⟩⟩

/-- The initial `AppState` of script.js (lines 7–15). -/
def initialState : AppState := ⟨false, ⟨none, none, none, none⟩⟩

/-- C2 counterexample: when all four fetches reject, `loadAllData`
still returns `true` (each rejection is caught inside `loadJSON`), so
`PageManager` takes the success branch: after `loadAndRenderContent`
the features container still holds the loading skeleton — which is not
the static fallback message — and `renderFallbackContent` (guarded by
`success = false`) never runs. -/
theorem c2_counterexample :
    (DataLoader.loadAllData initialState
        .networkError .networkError .networkError .networkError).1 = true ∧
    PageManager.loadAndRenderContent initialState
        .networkError .networkError .networkError .networkError sampleDom
      = .ok (initialState,
             ⟨some loadingSkeleton, some loadingSkeleton, some loadingSkeleton,
              some servicePlaceholder⟩) ∧
    loadingSkeleton ≠ fallbackFragment :=
  ⟨rfl, rfl, by decide⟩

/-- C2 as amended: when all four fetches reject, `loadJSON` converts
every rejection to null, `loadAllData` resolves `true` without a thrown
error, and `PageManager` takes the success branch — not
`renderFallbackContent`. All payloads being null, the features, tech
and use-case containers keep the loading skeleton and the service
container shows the table "loading" text; no container shows the static
fallback message. -/
theorem c2_amended_all_fetches_reject (st : AppState) (dom : PageDom) :
    (DataLoader.loadAllData st
        .networkError .networkError .networkError .networkError).1 = true ∧
    PageManager.loadAndRenderContent st
        .networkError .networkError .networkError .networkError dom
      = .ok ({ st with isLoading := false, data := ⟨none, none, none, none⟩ },
             { featuresGrid := dom.featuresGrid.map fun _ => loadingSkeleton,
               techPreview := dom.techPreview.map fun _ => loadingSkeleton,
               useCasesGrid := dom.useCasesGrid.map fun _ => loadingSkeleton,
               serviceTableContainer := dom.serviceTableContainer.map fun _ => servicePlaceholder }) := by
  refine ⟨rfl, ?_⟩
  obtain ⟨a, b, c, d⟩ := dom
  cases a <;> cases b <;> cases c <;> cases d <;> rfl
